import Mathlib

/-
Shallow embedding of src/class_S3.py, a thin wrapper around an S3-compatible
object-storage capability (boto3).  Python exceptions are modelled with
`Except`: a method that lets an exception escape returns `Except.error e`,
and a `try/except` block is a `match` on the outcome of the delegated call.
The source distinguishes `botocore.exceptions.ClientError` (a service-reported
error carrying an error code, read as `e.response["Error"]["Code"]`) from
every other exception (connection failures, timeouts, parameter-validation
errors, ...): `enable_bucket_versioning` and `file_exists` catch only
`ClientError`, while `set_bucket_lifecycle_policy` catches bare `Exception`.
The error model mirrors that split.  `print` side effects are modelled as
emitted `Report` values, one constructor per print statement of the source.
-/

namespace S3Spec

/-- Errors raised by the external object-storage capability: either a
`botocore.exceptions.ClientError` carrying the service error code, or any
other exception (e.g. a network failure), carrying its message. -/
inductive S3Error where
  | clientError (code : String)
  | otherException (msg : String)
deriving DecidableEq, Repr

/-- One report value per `print` statement in the source. -/
inductive Report where
  | policyUpdated
  | versioningEnabled (bucket : String)
  | bucketNotFound (bucket : String)
  | accessDenied (bucket : String)
  | versioningFailed (code : String)
  | lifecycleConfigured (bucket : String) (days : Int)
  | lifecycleFailed (e : S3Error)
  | uploaded (objectName : String)
  | downloaded (objectName : String)
deriving DecidableEq, Repr

/-- JSON values in the policy document that are either a bare string or an
array of strings (the source uses both shapes for Action and Resource). -/
inductive StrOrArr where
  | str (s : String)
  | arr (l : List String)
deriving DecidableEq, Repr

/-- A policy Principal: either a bare string (the wildcard `"*"`) or an
object of the shape `{"AWS": name}`. -/
inductive PrincipalVal where
  | str (s : String)
  | aws (name : String)
deriving DecidableEq, Repr

/-- One statement of the bucket policy document built in
`set_bucket_policy`. -/
structure PolicyStatement where
  sid : String
  effect : String
  principal : PrincipalVal
  action : StrOrArr
  resource : StrOrArr
deriving DecidableEq, Repr

/-- The bucket policy document (`json.dumps` serialisation is modelled as
handing the structured document to the capability). -/
structure BucketPolicy where
  version : String
  statement : List PolicyStatement
deriving DecidableEq, Repr

/-- The `VersioningConfiguration` argument of `put_bucket_versioning`. -/
structure VersioningConfig where
  status : String
deriving DecidableEq, Repr

/-- The `Filter` member of a lifecycle rule (`{"Prefix": ...}`). -/
structure LifecycleFilter where
  keyPfx : String
deriving DecidableEq, Repr

/-- The `Expiration` member of a lifecycle rule (`{"Days": ...}`). -/
structure LifecycleExpiration where
  days : Int
deriving DecidableEq, Repr

/-- One lifecycle rule as built in `set_bucket_lifecycle_policy`. -/
structure LifecycleRule where
  status : String
  filter : LifecycleFilter
  expiration : LifecycleExpiration
deriving DecidableEq, Repr

/-- The `LifecycleConfiguration` argument of
`put_bucket_lifecycle_configuration`. -/
structure LifecycleConfig where
  rules : List LifecycleRule
deriving DecidableEq, Repr

/-- One entry of the `Contents` array of a `list_objects_v2` response; the
source projects only the `Key` field. -/
structure S3ObjectEntry where
  key : String
  size : Nat
deriving DecidableEq, Repr

/-- A `list_objects_v2` response: the `Contents` key may be absent
(`none`), and the response also carries the pagination markers that the
source never inspects. -/
structure ListResponse where
  contents : Option (List S3ObjectEntry)
  isTruncated : Bool
  nextContinuationToken : Option String
deriving DecidableEq, Repr

/-- A successful `head_object` response (metadata; the source discards
it). -/
structure HeadObjectResponse where
  metadata : List (String × String)
deriving DecidableEq, Repr

/-- The external object-storage capability: one field per boto3 call the
wrapper issues.  Each call either succeeds with its response or raises an
`S3Error`. -/
structure S3Capability where
  putBucketPolicy : String → BucketPolicy → Except S3Error Unit
  putBucketVersioning : String → VersioningConfig → Except S3Error Unit
  putBucketLifecycleConfiguration : String → LifecycleConfig → Except S3Error Unit
  uploadFile : String → String → String → Except S3Error Unit
  downloadFile : String → String → String → Except S3Error Unit
  listObjectsV2 : String → Except S3Error ListResponse
  headObject : String → String → Except S3Error HeadObjectResponse

/-- The client state established by `__init__`: exactly the two instance
attributes the constructor assigns (`self.bucket` and the configured handle
`self.s3`); no other attribute is ever created by the class. -/
structure S3Client where
  bucket : String
  s3 : S3Capability

/-- `__init__`: stores the bucket and the handle obtained from
`boto3.client` with a fixed v4 signature scheme and the fixed region
placeholder. -/
def S3Client.construct
    (boto3Client : String → String → String → String → String → S3Capability)
    (endpoint access_key secret_key bucket : String) : S3Client :=
  { bucket := bucket
    s3 := boto3Client endpoint access_key secret_key "s3v4" "us-east-1" }

/-- `set_bucket_policy`: builds the hardcoded three-statement policy
document and sends it; no `try/except`, so a capability error escapes
unchanged. -/
def S3Client.set_bucket_policy (c : S3Client) : Except S3Error (List Report) :=
  let policy : BucketPolicy :=
    { version := "2012-10-17"
      statement :=
        [ { sid := "PublicRead"
            effect := "Allow"
            principal := .str "*"
            action := .str "s3:GetObject"
            resource := .str ("arn:aws:s3:::" ++ c.bucket ++ "/*") }
        , { sid := "FullAccessForUserM"
            effect := "Allow"
            principal := .aws "user_m"
            action := .str "s3:*"
            resource := .arr ["arn:aws:s3:::" ++ c.bucket,
                              "arn:aws:s3:::" ++ c.bucket ++ "/*"] }
        , { sid := "ReadOnlyForUserB"
            effect := "Allow"
            principal := .aws "user_b"
            action := .arr ["s3:GetObject", "s3:ListBucket"]
            resource := .arr ["arn:aws:s3:::" ++ c.bucket,
                              "arn:aws:s3:::" ++ c.bucket ++ "/*"] } ] }
  match c.s3.putBucketPolicy c.bucket policy with
  | .error e => .error e
  | .ok _ => .ok [.policyUpdated]

/-- `enable_bucket_versioning`: requests status Enabled; `except
ClientError` classifies by error code and returns False; an exception that
is not a ClientError is not caught and escapes. -/
def S3Client.enable_bucket_versioning (c : S3Client) :
    Except S3Error (List Report × Bool) :=
  match c.s3.putBucketVersioning c.bucket { status := "Enabled" } with
  | .ok _ => .ok ([.versioningEnabled c.bucket], true)
  | .error (.clientError error_code) =>
      if error_code = "NoSuchBucket" then .ok ([.bucketNotFound c.bucket], false)
      else if error_code = "AccessDenied" then .ok ([.accessDenied c.bucket], false)
      else .ok ([.versioningFailed error_code], false)
  | .error (.otherException m) => .error (.otherException m)

/-- `set_bucket_lifecycle_policy`: builds a one-rule configuration and
sends it; `except Exception` catches every error, so the method is total
(never raises) and returns a success flag. -/
def S3Client.set_bucket_lifecycle_policy (c : S3Client) (expiration_days : Int) :
    List Report × Bool :=
  let lifecycle_config : LifecycleConfig :=
    { rules := [ { status := "Enabled"
                   filter := { keyPfx := "" }
                   expiration := { days := expiration_days } } ] }
  match c.s3.putBucketLifecycleConfiguration c.bucket lifecycle_config with
  | .ok _ => ([.lifecycleConfigured c.bucket expiration_days], true)
  | .error e => ([.lifecycleFailed e], false)

/-- The call form with the `expiration_days` parameter omitted: the Python
default value is 3. -/
def S3Client.set_bucket_lifecycle_policy_default (c : S3Client) :
    List Report × Bool :=
  c.set_bucket_lifecycle_policy 3

/-- `upload`: one delegated `upload_file` call, no `try/except`. -/
def S3Client.upload (c : S3Client) (file_path object_name : String) :
    Except S3Error (List Report) :=
  match c.s3.uploadFile file_path c.bucket object_name with
  | .error e => .error e
  | .ok _ => .ok [.uploaded object_name]

/-- `download`: one delegated `download_file` call, no `try/except`. -/
def S3Client.download (c : S3Client) (object_name save_path : String) :
    Except S3Error (List Report) :=
  match c.s3.downloadFile c.bucket object_name save_path with
  | .error e => .error e
  | .ok _ => .ok [.downloaded object_name]

/-- `list_files`: one `list_objects_v2` call; empty list when the response
has no `Contents` key, otherwise the `Key` of each entry in order. -/
def S3Client.list_files (c : S3Client) : Except S3Error (List String) :=
  match c.s3.listObjectsV2 c.bucket with
  | .error e => .error e
  | .ok response =>
      match response.contents with
      | none => .ok []
      | some objs => .ok (objs.map (fun obj => obj.key))

/-- `file_exists`: one `head_object` probe; `except ClientError` returns
False; an exception that is not a ClientError is not caught and escapes. -/
def S3Client.file_exists (c : S3Client) (object_name : String) :
    Except S3Error Bool :=
  match c.s3.headObject c.bucket object_name with
  | .ok _ => .ok true
  | .error (.clientError _) => .ok false
  | .error (.otherException m) => .error (.otherException m)

/-- The operations of the class, with their arguments. -/
inductive Op where
  | setBucketPolicyOp
  | enableVersioningOp
  | setLifecycleOp (days : Int)
  | uploadOp (filePath objectName : String)
  | downloadOp (objectName savePath : String)
  | listFilesOp
  | fileExistsOp (objectName : String)
deriving DecidableEq, Repr

/-- The caller-observable outcome of one operation. -/
inductive OpOutcome where
  | raised (e : S3Error)
  | reported (rs : List Report)
  | flagged (rs : List Report) (success : Bool)
  | listing (keys : List String)
  | existence (rs : Bool)
deriving DecidableEq, Repr

/-- Wraps an `Except` result as an outcome: an escaped exception is
`raised`. -/
def exceptOutcome {α : Type} (f : α → OpOutcome) : Except S3Error α → OpOutcome
  | .error e => .raised e
  | .ok a => f a

/-- Runs one operation on the client, returning the instance state after
the call together with the outcome.  Every method body of the source is
free of assignments to `self`, so each arm returns the incoming state. -/
def S3Client.runOp (c : S3Client) : Op → S3Client × OpOutcome
  | .setBucketPolicyOp => (c, exceptOutcome OpOutcome.reported c.set_bucket_policy)
  | .enableVersioningOp =>
      (c, exceptOutcome (fun p => OpOutcome.flagged p.1 p.2) c.enable_bucket_versioning)
  | .setLifecycleOp days =>
      (c, OpOutcome.flagged (c.set_bucket_lifecycle_policy days).1
            (c.set_bucket_lifecycle_policy days).2)
  | .uploadOp fp k => (c, exceptOutcome OpOutcome.reported (c.upload fp k))
  | .downloadOp k sp => (c, exceptOutcome OpOutcome.reported (c.download k sp))
  | .listFilesOp => (c, exceptOutcome OpOutcome.listing c.list_files)
  | .fileExistsOp k => (c, exceptOutcome OpOutcome.existence (c.file_exists k))

/-- A capability on which every call succeeds, with an empty listing and
empty head metadata; concrete sample clients below override single
fields. -/
def capOkAll : S3Capability :=
  { putBucketPolicy := fun _ _ => .ok ()
    putBucketVersioning := fun _ _ => .ok ()
    putBucketLifecycleConfiguration := fun _ _ => .ok ()
    uploadFile := fun _ _ _ => .ok ()
    downloadFile := fun _ _ _ => .ok ()
    listObjectsV2 := fun _ => .ok { contents := none, isTruncated := false,
                                    nextContinuationToken := none }
    headObject := fun _ _ => .ok { metadata := [] } }

/-- The lifecycle configuration as the spec describes it: exactly one rule,
status Enabled, an empty key-prefix filter, and an expiration of exactly the
given number of days.  Stated from the spec, to be compared with the
configuration the code builds. -/
def specLifecycleConfig (expiration_days : Int) : LifecycleConfig :=
  { rules := [ { status := "Enabled"
                 filter := { keyPfx := "" }
                 expiration := { days := expiration_days } } ] }

/-- The policy document as the spec describes it: an Allow statement granting
the wildcard principal the GetObject action on all objects of the bucket, an
Allow statement granting principal user_m all S3 actions on the bucket and
its objects, and an Allow statement granting principal user_b GetObject and
ListBucket on the bucket and its objects.  Stated from the spec, to be
compared with the document the code builds. -/
def specPolicyDocument (bucket : String) : BucketPolicy :=
  { version := "2012-10-17"
    statement :=
      [ { sid := "PublicRead"
          effect := "Allow"
          principal := .str "*"
          action := .str "s3:GetObject"
          resource := .str ("arn:aws:s3:::" ++ bucket ++ "/*") }
      , { sid := "FullAccessForUserM"
          effect := "Allow"
          principal := .aws "user_m"
          action := .str "s3:*"
          resource := .arr ["arn:aws:s3:::" ++ bucket,
                            "arn:aws:s3:::" ++ bucket ++ "/*"] }
      , { sid := "ReadOnlyForUserB"
          effect := "Allow"
          principal := .aws "user_b"
          action := .arr ["s3:GetObject", "s3:ListBucket"]
          resource := .arr ["arn:aws:s3:::" ++ bucket,
                            "arn:aws:s3:::" ++ bucket ++ "/*"] } ] }

/- Sample clients used by the concrete witnesses and counterexamples. -/

def clientVersioningOk : S3Client := { bucket := "bktc1a", s3 := capOkAll }

def clientVersioningNoBucket : S3Client :=
  { bucket := "bktc1b"
    s3 := { capOkAll with
              putBucketVersioning := fun _ _ => .error (.clientError "NoSuchBucket") } }

def clientVersioningDenied : S3Client :=
  { bucket := "bktc1c"
    s3 := { capOkAll with
              putBucketVersioning := fun _ _ => .error (.clientError "AccessDenied") } }

def clientVersioningOther : S3Client :=
  { bucket := "bktc1d"
    s3 := { capOkAll with
              putBucketVersioning := fun _ _ => .error (.clientError "InternalError") } }

def clientVersioningConnFail : S3Client :=
  { bucket := "bktc1e"
    s3 := { capOkAll with
              putBucketVersioning := fun _ _ => .error (.otherException "connection refused") } }

def clientVersioningConnFail2 : S3Client :=
  { bucket := "bktc1f"
    s3 := { capOkAll with
              putBucketVersioning := fun _ _ => .error (.otherException "reset") } }

def clientLifeFailC2 : S3Client :=
  { bucket := "bktc2"
    s3 := { capOkAll with
              putBucketLifecycleConfiguration := fun _ _ => .error (.otherException "boom") } }

def clientHeadOk : S3Client := { bucket := "bktc3a", s3 := capOkAll }

def clientHeadNotFound : S3Client :=
  { bucket := "bktc3b"
    s3 := { capOkAll with headObject := fun _ _ => .error (.clientError "404") } }

def clientHeadConnFail : S3Client :=
  { bucket := "bktc3x"
    s3 := { capOkAll with headObject := fun _ _ => .error (.otherException "read timeout") } }

def clientLifeC6 : S3Client := { bucket := "bktc6", s3 := capOkAll }

def clientTransferFail : S3Client :=
  { bucket := "bktc8"
    s3 := { capOkAll with
              uploadFile := fun _ _ _ => .error (.clientError "AccessDenied")
              downloadFile := fun _ _ _ => .error (.clientError "NoSuchKey") } }

def clientTransferOk : S3Client := { bucket := "bktc10", s3 := capOkAll }

/-- Claim C1 (amended): for every ClientError failure of the underlying
set-bucket-versioning call, `enable_bucket_versioning` catches it,
classifies it by error code into bucket-not-found (code NoSuchBucket),
access-denied (code AccessDenied), or other (any other code), emits a
report, and returns false; it returns true when the call succeeds; an
exception that is not a ClientError is not caught and propagates to the
caller. -/
theorem enable_bucket_versioning_classifies (c : S3Client) :
    (c.s3.putBucketVersioning c.bucket { status := "Enabled" } = .ok () →
      c.enable_bucket_versioning = .ok ([Report.versioningEnabled c.bucket], true)) ∧
    (∀ code, c.s3.putBucketVersioning c.bucket { status := "Enabled" } =
        .error (.clientError code) →
      c.enable_bucket_versioning =
        .ok ([if code = "NoSuchBucket" then Report.bucketNotFound c.bucket
              else if code = "AccessDenied" then Report.accessDenied c.bucket
              else Report.versioningFailed code], false)) ∧
    (∀ m, c.s3.putBucketVersioning c.bucket { status := "Enabled" } =
        .error (.otherException m) →
      c.enable_bucket_versioning = .error (.otherException m)) := by
  refine ⟨fun h => ?_, fun code h => ?_, fun m h => ?_⟩ <;>
    unfold S3Client.enable_bucket_versioning <;> rw [h]
  dsimp only
  split_ifs <;> rfl

/-- Witness for C1: the five outcome shapes at concrete clients. -/
theorem enable_bucket_versioning_classifies_witness :
    clientVersioningOk.enable_bucket_versioning =
      .ok ([Report.versioningEnabled "bktc1a"], true) ∧
    clientVersioningNoBucket.enable_bucket_versioning =
      .ok ([Report.bucketNotFound "bktc1b"], false) ∧
    clientVersioningDenied.enable_bucket_versioning =
      .ok ([Report.accessDenied "bktc1c"], false) ∧
    clientVersioningOther.enable_bucket_versioning =
      .ok ([Report.versioningFailed "InternalError"], false) ∧
    clientVersioningConnFail2.enable_bucket_versioning =
      .error (.otherException "reset") := by
  refine ⟨(enable_bucket_versioning_classifies clientVersioningOk).1 rfl, ?_, ?_, ?_,
    (enable_bucket_versioning_classifies clientVersioningConnFail2).2.2 "reset" rfl⟩
  · have h := (enable_bucket_versioning_classifies clientVersioningNoBucket).2.1
      "NoSuchBucket" rfl
    simpa using h
  · have h := (enable_bucket_versioning_classifies clientVersioningDenied).2.1
      "AccessDenied" rfl
    simpa using h
  · have h := (enable_bucket_versioning_classifies clientVersioningOther).2.1
      "InternalError" rfl
    simpa using h

/-- Claim C1, as stated, is false: when the underlying call fails with an
exception that is not a ClientError (here a connection failure), the method
does not catch it, emits no report, and does not return false — the error
propagates to the caller. -/
theorem enable_bucket_versioning_raises_counterexample :
    clientVersioningConnFail.enable_bucket_versioning =
      .error (.otherException "connection refused") := rfl

/-- Helper equation: `set_bucket_lifecycle_policy` is the handler of the
one delegated call, made with the configuration of the spec. -/
theorem lifecycle_eq (c : S3Client) (days : Int) :
    c.set_bucket_lifecycle_policy days =
      match c.s3.putBucketLifecycleConfiguration c.bucket (specLifecycleConfig days) with
      | .ok _ => ([Report.lifecycleConfigured c.bucket days], true)
      | .error e => ([Report.lifecycleFailed e], false) := rfl

/-- Claim C2: `set_bucket_lifecycle_policy` catches every error of the
underlying set-bucket-lifecycle-configuration call (the method is total:
its result type shows no escaping exception), emits a report and returns
false on failure, and returns true exactly when the call succeeds. -/
theorem set_bucket_lifecycle_policy_swallows (c : S3Client) (days : Int) :
    ((c.set_bucket_lifecycle_policy days).2 = true ↔
      c.s3.putBucketLifecycleConfiguration c.bucket (specLifecycleConfig days) = .ok ()) ∧
    (∀ e, c.s3.putBucketLifecycleConfiguration c.bucket (specLifecycleConfig days) =
        .error e →
      c.set_bucket_lifecycle_policy days = ([Report.lifecycleFailed e], false)) := by
  constructor
  · rw [lifecycle_eq]
    cases h : c.s3.putBucketLifecycleConfiguration c.bucket (specLifecycleConfig days) with
    | ok u => cases u; simp
    | error e => simp
  · intro e h
    rw [lifecycle_eq, h]

/-- Witness for C2: a concrete failing capability yields a report and
false. -/
theorem set_bucket_lifecycle_policy_swallows_witness :
    clientLifeFailC2.set_bucket_lifecycle_policy 3 =
      ([Report.lifecycleFailed (.otherException "boom")], false) :=
  (set_bucket_lifecycle_policy_swallows clientLifeFailC2 3).2 (.otherException "boom") rfl

/-- Claim C3 (amended): `file_exists` returns true iff the head-object
probe succeeds; every ClientError probe failure (including not-found and
access-denied) yields false; a probe error that is not a ClientError (e.g.
a network error) is not caught and propagates to the caller. -/
theorem file_exists_probe (c : S3Client) (k : String) :
    (∀ r, c.s3.headObject c.bucket k = .ok r → c.file_exists k = .ok true) ∧
    (∀ code, c.s3.headObject c.bucket k = .error (.clientError code) →
      c.file_exists k = .ok false) ∧
    (∀ m, c.s3.headObject c.bucket k = .error (.otherException m) →
      c.file_exists k = .error (.otherException m)) := by
  refine ⟨fun r h => ?_, fun code h => ?_, fun m h => ?_⟩ <;>
    unfold S3Client.file_exists <;> rw [h]

/-- Witness for C3: a successful probe yields true, a ClientError probe
yields false. -/
theorem file_exists_probe_witness :
    clientHeadOk.file_exists "a.txt" = .ok true ∧
    clientHeadNotFound.file_exists "a.txt" = .ok false :=
  ⟨(file_exists_probe clientHeadOk "a.txt").1 { metadata := [] } rfl,
   (file_exists_probe clientHeadNotFound "a.txt").2.1 "404" rfl⟩

/-- Claim C3, as stated, is false: a probe failure that is not a
ClientError (here a network timeout) does not yield false — it propagates
to the caller. -/
theorem file_exists_raises_counterexample :
    clientHeadConnFail.file_exists "sales_data.csv" =
      .error (.otherException "read timeout") := rfl

/-- Claim C4: `list_files` is determined by a single listing call (the
pagination markers of the response are never read, so there is no
pagination loop): a response without a Contents key yields the empty
sequence, otherwise the object keys of that one response in order. -/
theorem list_files_single_call (c : S3Client) :
    c.list_files =
      match c.s3.listObjectsV2 c.bucket with
      | .error e => .error e
      | .ok r => .ok ((r.contents.getD []).map S3ObjectEntry.key) := by
  unfold S3Client.list_files
  cases h : c.s3.listObjectsV2 c.bucket with
  | error e => rfl
  | ok r =>
      obtain ⟨cs, tr, tok⟩ := r
      cases cs <;> rfl

/-- Claim C5: for every expirationDays argument, the configuration sent to
the capability is exactly one rule with status Enabled, empty key-prefix
filter and expiration of exactly that many days; omitting the argument uses
the value 3. -/
theorem set_bucket_lifecycle_policy_rule (c : S3Client) (days : Int) :
    (c.set_bucket_lifecycle_policy days =
      match c.s3.putBucketLifecycleConfiguration c.bucket (specLifecycleConfig days) with
      | .ok _ => ([Report.lifecycleConfigured c.bucket days], true)
      | .error e => ([Report.lifecycleFailed e], false)) ∧
    c.set_bucket_lifecycle_policy_default = c.set_bucket_lifecycle_policy 3 :=
  ⟨rfl, rfl⟩

/-- Claim C6: `set_bucket_lifecycle_policy` performs no validation of the
expirationDays value: even for a non-positive value, the value reaches the
capability unmodified inside the one rule, and the method still issues the
call and returns a flag instead of rejecting locally. -/
theorem set_bucket_lifecycle_policy_no_validation (c : S3Client) (days : Int)
    (_hd : days ≤ 0) :
    (specLifecycleConfig days).rules.map (fun r => r.expiration.days) = [days] ∧
    c.set_bucket_lifecycle_policy days =
      (match c.s3.putBucketLifecycleConfiguration c.bucket (specLifecycleConfig days) with
       | .ok _ => ([Report.lifecycleConfigured c.bucket days], true)
       | .error e => ([Report.lifecycleFailed e], false)) :=
  ⟨rfl, rfl⟩

/-- Witness for C6: a negative value is passed through and the call is
made. -/
theorem set_bucket_lifecycle_policy_no_validation_witness :
    (-5 : Int) ≤ 0 ∧
    clientLifeC6.set_bucket_lifecycle_policy (-5) =
      ([Report.lifecycleConfigured "bktc6" (-5)], true) := by
  have h := set_bucket_lifecycle_policy_no_validation clientLifeC6 (-5) (by decide)
  exact ⟨by decide, h.2.trans rfl⟩

/-- Claim C7: `set_bucket_policy` takes no input and always sends the one
fixed three-statement policy document (public-read GetObject for the
wildcard principal, full access for user_m, GetObject and ListBucket for
user_b, on the configured bucket); any capability error propagates
unchanged. -/
theorem set_bucket_policy_fixed_document (c : S3Client) :
    (specPolicyDocument c.bucket).statement.length = 3 ∧
    c.set_bucket_policy =
      match c.s3.putBucketPolicy c.bucket (specPolicyDocument c.bucket) with
      | .error e => .error e
      | .ok _ => .ok [Report.policyUpdated] :=
  ⟨rfl, rfl⟩

/-- Claim C8: `upload` and `download` contain no error handling — a failure
of the underlying transfer call surfaces unchanged. -/
theorem upload_download_propagate (c : S3Client) (fp k sp : String) (e : S3Error) :
    (c.s3.uploadFile fp c.bucket k = .error e → c.upload fp k = .error e) ∧
    (c.s3.downloadFile c.bucket k sp = .error e → c.download k sp = .error e) := by
  constructor <;> intro h
  · unfold S3Client.upload; rw [h]
  · unfold S3Client.download; rw [h]

/-- Witness for C8: concrete failing transfers surface the capability
error. -/
theorem upload_download_propagate_witness :
    clientTransferFail.upload "local.csv" "obj.csv" =
      .error (.clientError "AccessDenied") ∧
    clientTransferFail.download "obj.csv" "save.csv" =
      .error (.clientError "NoSuchKey") :=
  ⟨(upload_download_propagate clientTransferFail "local.csv" "obj.csv" "save.csv"
      (.clientError "AccessDenied")).1 rfl,
   (upload_download_propagate clientTransferFail "local.csv" "obj.csv" "save.csv"
      (.clientError "NoSuchKey")).2 rfl⟩

/-- Claim C9: every operation leaves the instance state (the bucket name
and the configured handle, the only attributes the constructor creates)
unchanged; no operation stores listings, policies or content in the
instance. -/
theorem runOp_preserves_configuration (c : S3Client) (op : Op) :
    (c.runOp op).1 = c := by
  cases op <;> rfl

/-- Claim C10: on success `upload` and `download` return no value — the
caller observes only the print report and the absence of an error (the
Python methods return None). -/
theorem upload_download_return_none (c : S3Client) (fp k sp : String) :
    (c.s3.uploadFile fp c.bucket k = .ok () →
      c.upload fp k = .ok [Report.uploaded k]) ∧
    (c.s3.downloadFile c.bucket k sp = .ok () →
      c.download k sp = .ok [Report.downloaded k]) := by
  constructor <;> intro h
  · unfold S3Client.upload; rw [h]
  · unfold S3Client.download; rw [h]

/-- Witness for C10: concrete successful transfers yield only the report. -/
theorem upload_download_return_none_witness :
    clientTransferOk.upload "local.csv" "obj.csv" = .ok [Report.uploaded "obj.csv"] ∧
    clientTransferOk.download "obj.csv" "save.csv" = .ok [Report.downloaded "obj.csv"] :=
  ⟨(upload_download_return_none clientTransferOk "local.csv" "obj.csv" "save.csv").1 rfl,
   (upload_download_return_none clientTransferOk "local.csv" "obj.csv" "save.csv").2 rfl⟩

end S3Spec
